import Mathlib

/-!
Verification of the request admission pipeline of the communex module server:
`src/communex/module/server.py` (signature-verification middleware, endpoint
registration) and `src/communex/module/_ip_limiter.py` (rate-limit middleware).

External collaborators (the web framework, the cryptographic `signer.verify`
capability, the pluggable `KeyLimiter` and the pydantic schema validation) are
embedded as abstract function parameters, exactly as the spec delimits them.
Python byte strings are `List Nat`; exceptions are an explicit `PyExn` error
value; mutable limiter state is threaded explicitly.
-/

/-- Python `bytes` values: a list of byte values. -/
abbrev Bytes := List Nat

deriving instance DecidableEq for Except

/-- A character matched by the character class `[0-9a-fA-F]` of the regex in
`is_hex_string`. -/
def isHexRegexChar (c : Char) : Bool :=
  ('0' ≤ c && c ≤ '9') || ('a' ≤ c && c ≤ 'f') || ('A' ≤ c && c ≤ 'F')

/-- Function `is_hex_string` from server.py: `bool(re.match(r'^[0-9a-fA-F]+$', string))`.
Python `$` (without MULTILINE) matches at the end of the string or just before
a newline that is the last character, so a single trailing newline is
tolerated by the regex. -/
def is_hex_string (string : String) : Bool :=
  let chars := string.data
  let core := if chars.getLast? = some '\n' then chars.dropLast else chars
  decide (core ≠ []) && core.all isHexRegexChar

/-- Value of a hexadecimal digit character, `none` on any other character. -/
def hexDigitVal? (c : Char) : Option Nat :=
  if '0' ≤ c ∧ c ≤ '9' then some (c.toNat - 48)
  else if 'a' ≤ c ∧ c ≤ 'f' then some (c.toNat - 87)
  else if 'A' ≤ c ∧ c ≤ 'F' then some (c.toNat - 55)
  else none

/-- ASCII whitespace skipped by Python `bytes.fromhex` between byte pairs. -/
def isPyAsciiSpace (c : Char) : Bool :=
  c = ' ' || c = '\t' || c = '\n' || c = '\r' || c = '\x0b' || c = '\x0c'

/-- Python `bytes.fromhex`: pairs of hex digits, ASCII whitespace permitted
between pairs (not inside a pair); any other character, or an odd trailing
digit, raises ValueError (modelled as `none`). -/
def bytesFromHex : List Char → Option Bytes
  | [] => some []
  | c :: cs =>
    if isPyAsciiSpace c then bytesFromHex cs
    else
      match hexDigitVal? c with
      | none => none
      | some hi =>
        match cs with
        | [] => none
        | d :: cs2 =>
          match hexDigitVal? d with
          | none => none
          | some lo =>
            match bytesFromHex cs2 with
            | none => none
            | some rest => some ((16 * hi + lo) :: rest)

/-- Function `parse_hex` from server.py: strip an optional leading `0x`
(`hex_str[0:2] == '0x'`), then `bytes.fromhex`; `none` models the ValueError
escaping from `bytes.fromhex`. -/
def parse_hex (hex_str : String) : Option Bytes :=
  if hex_str.data.take 2 = ['0', 'x'] then bytesFromHex (hex_str.data.drop 2)
  else bytesFromHex hex_str.data

/-- Decimal digit run of a Python `int()` literal, with single underscores
permitted between digits; accumulator style. -/
def pyDigitsGo : Nat → List Char → Option Nat
  | acc, [] => some acc
  | acc, c :: cs =>
    if c.isDigit then pyDigitsGo (10 * acc + (c.toNat - 48)) cs
    else if c = '_' then
      match cs with
      | [] => none
      | d :: _ => if d.isDigit then pyDigitsGo acc cs else none
    else none

/-- Digit run of `int()`: must begin with a digit. -/
def pyIntOfDigits : List Char → Option Nat
  | [] => none
  | c :: cs => if c.isDigit then pyDigitsGo (c.toNat - 48) cs else none

/-- The whitespace stripping of Python `int()` (as `str.strip()`). -/
def pyStripChars (s : List Char) : List Char :=
  ((s.dropWhile Char.isWhitespace).reverse.dropWhile Char.isWhitespace).reverse

/-- Python `int(s)` on a decimal string: strip surrounding whitespace, optional
sign, then digits; `none` models the ValueError on anything else. -/
def pyInt? (s : String) : Option Int :=
  match pyStripChars s.data with
  | '+' :: rest => (pyIntOfDigits rest).map (fun n => (n : Int))
  | '-' :: rest => (pyIntOfDigits rest).map (fun n => -(n : Int))
  | rest => (pyIntOfDigits rest).map (fun n => (n : Int))

/-- Response body, as produced by the pipeline: the starlette default empty
body, the structured `\x7b"error": \x7b"code", "message"\x7d\x7d` JSON object of
`_return_error`, a bare JSON string, or an opaque downstream payload. -/
inductive RespBody where
  | empty : RespBody
  | errorObj (code : Nat) (message : String) : RespBody
  | jsonStr (s : String) : RespBody
  | payload (data : String) : RespBody
deriving DecidableEq

/-- An HTTP response: status code, headers, body. -/
structure Response where
  status_code : Nat
  headers : List (String × String)
  body : RespBody
deriving DecidableEq

/-- Function `_return_error` from server.py: a JSONResponse with the structured error
object body. -/
def _return_error (code : Nat) (message : String) : Response :=
  { status_code := code, headers := [], body := .errorObj code message }

/-- Whether a response body has the structured error-object shape. -/
def isErrorBody : RespBody → Bool
  | .errorObj _ _ => true
  | _ => false

/-- ASCII lowercasing of a header name. -/
def lowerStr (s : String) : String := ⟨s.data.map Char.toLower⟩

/-- starlette `Headers.get`: case-insensitive lookup of the first matching
header. -/
def headersGet (hs : List (String × String)) (key : String) : Option String :=
  match hs.find? (fun p => lowerStr p.1 = lowerStr key) with
  | some p => some p.2
  | none => none

/-- Function `_get_headers_dict` from server.py: walk the required header names in
order; the first header that is absent or falsy (empty string) aborts with the
400 "Missing header" error response; otherwise collect name/value pairs. -/
def _get_headers_dict (headers : List (String × String)) :
    List String → Except Response (List (String × String))
  | [] => .ok []
  | required_header :: rest =>
    match headersGet headers required_header with
    | none => .error (_return_error 400 ("Missing header: " ++ required_header))
    | some value =>
      if value = "" then
        .error (_return_error 400 ("Missing header: " ++ required_header))
      else
        match _get_headers_dict headers rest with
        | .error e => .error e
        | .ok d => .ok ((required_header, value) :: d)

/-- Python dict lookup `d[k]`; call sites only use keys guaranteed present. -/
def dictGet (d : List (String × String)) (k : String) : String :=
  match d.find? (fun p => p.1 = k) with
  | some p => p.2
  | none => ""

/-- The required headers of `input_middleware`. -/
def requiredHeaders : List String := ["x-signature", "x-key", "x-crypto"]

/-- Unhandled Python exceptions escaping the middleware. -/
inductive PyExn where
  | valueError (msg : String) : PyExn
  | assertionError (msg : String) : PyExn
deriving DecidableEq

/-- The ASGI receive side of a request: either the underlying one-shot channel
(drained irrecoverably by a body read) or the closure patched in by
`peek_body`, which replays the captured body on every later read. -/
inductive Receive where
  | channel (pending : List Bytes) : Receive
  | replay (body : Bytes) : Receive
deriving DecidableEq

/-- An inbound request: `request.client.host` (with `none` for a missing
client and `""` for a falsy host), the headers, and the receive side. -/
structure Request where
  client : Option String
  headers : List (String × String)
  receive : Receive
deriving DecidableEq

/-- Reading `await request.body()`: drain the receive channel (the one-shot channel is
emptied; the patched replay closure keeps yielding the captured bytes). -/
def Request.body : Request → Bytes × Request
  | ⟨client, headers, .channel pending⟩ =>
    (pending.flatten, ⟨client, headers, .channel []⟩)
  | ⟨client, headers, .replay b⟩ => (b, ⟨client, headers, .replay b⟩)

/-- Function `peek_body` from server.py: read the body, then patch `request._receive`
with a closure that returns the captured body, so later stages can read the
same bytes again. -/
def peek_body (request : Request) : Bytes × Request :=
  let res := Request.body request
  (res.1, { res.2 with receive := .replay res.1 })

/-- Function `input_middleware` from `ModuleServer.register_middleware`: peek the body,
require the three headers, convert `x-crypto` with unguarded `int()`, check
`x-key` with `is_hex_string`, hex-decode signature and key with `parse_hex`,
call the `signer.verify` capability, and forward to `call_next` on success.
`.error` carries an exception escaping the middleware. -/
def input_middleware (verify : Bytes → Int → Bytes → Bytes → Bool)
    (request : Request) (call_next : Request → Response) :
    Except PyExn Response :=
  let peeked := peek_body request
  let body := peeked.1
  let request := peeked.2
  match _get_headers_dict request.headers requiredHeaders with
  | .error err => .ok err
  | .ok headers_dict =>
    let signature_str := dictGet headers_dict "x-signature"
    let key_str := dictGet headers_dict "x-key"
    match pyInt? (dictGet headers_dict "x-crypto") with
    | none => .error (.valueError "invalid literal for int with base 10")
    | some crypto =>
      if is_hex_string key_str = false then
        .ok (_return_error 400 "X-Key should be a hex value")
      else
        match parse_hex signature_str with
        | none => .error (.valueError "non-hexadecimal number found in fromhex arg")
        | some signature =>
          match parse_hex key_str with
          | none => .error (.valueError "non-hexadecimal number found in fromhex arg")
          | some key =>
            if verify key crypto body signature = false then
              .ok { status_code := 401, headers := [],
                    body := .jsonStr "Signatures doesn\x27t match" }
            else
              .ok (call_next request)

/-- The pluggable limiter capability `\x7ballow, remaining\x7d` of the
keylimiter package, with its mutable state threaded explicitly. -/
structure KeyLimiter (σ : Type) where
  allow : σ → String → Bool × σ
  remaining : σ → String → Int

/-- Method `IpLimiterMiddleware.dispatch` from _ip_limiter.py: assert a client with a
truthy host, call `allow(ip)`; when denied answer 400 immediately with the
`X-RateLimit-Remaining` header (and the starlette default empty body),
otherwise forward to `call_next` and return its response unchanged. -/
def IpLimiterMiddleware.dispatch {σ : Type} (limiter : KeyLimiter σ) (st : σ)
    (request : Request) (call_next : Request → Except PyExn Response) :
    Except PyExn (Response × σ) :=
  match request.client with
  | none => .error (.assertionError "request is invalid")
  | some host =>
    if host = "" then .error (.assertionError "request is invalid.")
    else
      let ip := host
      let allowRes := limiter.allow st ip
      let is_allowed := allowRes.1
      let st2 := allowRes.2
      if is_allowed = false then
        .ok ({ status_code := 400,
               headers :=
                 [("X-RateLimit-Remaining", toString (limiter.remaining st2 ip))],
               body := .empty }, st2)
      else
        match call_next request with
        | .error e => .error e
        | .ok response => .ok (response, st2)

/-- Configuration of `ModuleServer.__init__`: `max_request_staleness`
(default 60) and the limiter handed to `IpLimiterMiddleware`. -/
structure ModuleServerConfig (σ : Type) where
  max_request_staleness : Int := 60
  ip_limiter : KeyLimiter σ

/-- The admission pipeline of `ModuleServer`: `add_middleware` inserts at the
head of the stack, so `IpLimiterMiddleware` (added last) is outermost and runs
first, wrapping `input_middleware`, which wraps the route dispatch. -/
def moduleServerPipeline {σ : Type} (cfg : ModuleServerConfig σ) (st : σ)
    (verify : Bytes → Int → Bytes → Bytes → Bool)
    (route : Request → Response) (request : Request) :
    Except PyExn (Response × σ) :=
  IpLimiterMiddleware.dispatch cfg.ip_limiter st request
    (fun req => input_middleware verify req route)

/-- Route handler built by `ModuleServer.register_endpoints` for one endpoint:
the framework validates the body against `Body(params: params_model)` (the
external schema-validation collaborator, embedded as `validate`); on success
the handler runs `endpoint_def.fn(self._module, **body.params.model_dump())`. -/
def endpointHandler {M P R E B : Type} (validate : B → Except E P)
    (fn : M → P → R) (module : M) (raw : B) : Except E R :=
  match validate raw with
  | .error e => .error e
  | .ok params => .ok (fn module params)

/-- A verification capability accepting everything. -/
def verifyTrue : Bytes → Int → Bytes → Bytes → Bool := fun _ _ _ _ => true

/-- A verification capability rejecting everything. -/
def verifyFalse : Bytes → Int → Bytes → Bytes → Bool := fun _ _ _ _ => false

/-- A downstream route dispatch answering 200 with an opaque payload. -/
def routeOk : Request → Response :=
  fun _ => { status_code := 200, headers := [], body := .payload "ok" }

/-- A limiter instance that denies every request, remaining count 0. -/
def denyAllLimiter : KeyLimiter Unit :=
  { allow := fun s _ => (false, s), remaining := fun _ _ => 0 }

/-- A limiter instance that allows every request. -/
def allowAllLimiter : KeyLimiter Unit :=
  { allow := fun s _ => (true, s), remaining := fun _ _ => 7 }

/-- A request carrying all three headers, with a 0x-prefixed hex x-key and an
integer x-crypto. -/
def reqPrefixedKey : Request :=
  { client := some "1.2.3.4",
    headers := [("x-signature", "00"), ("x-key", "0xAB12"), ("x-crypto", "1")],
    receive := .channel [[104, 105]] }

/-- A request carrying all three headers, with a non-integer x-crypto and a
non-hex x-key. -/
def reqBadCrypto : Request :=
  { client := some "1.2.3.4",
    headers := [("x-signature", "00"), ("x-key", "zz11"), ("x-crypto", "abc")],
    receive := .channel [[104, 105]] }

/-- A request carrying all three headers, with a non-hex x-signature, a valid
hex x-key and an integer x-crypto. -/
def reqBadSignature : Request :=
  { client := some "1.2.3.4",
    headers := [("x-signature", "zz"), ("x-key", "ab"), ("x-crypto", "1")],
    receive := .channel [[104, 105]] }

/-- A request with well-formed signing headers throughout. -/
def reqWellFormed : Request :=
  { client := some "1.2.3.4",
    headers := [("x-signature", "00"), ("x-key", "ab"), ("x-crypto", "1")],
    receive := .channel [[104, 105]] }

/-- A request whose x-signature header is absent. -/
def reqMissingSig : Request :=
  { client := some "1.2.3.4", headers := [("x-key", "ab")],
    receive := .channel [[104, 105]] }

/-- A request carrying all three headers with a non-hex x-key and an integer
x-crypto. -/
def reqNonHexKey : Request :=
  { client := some "1.2.3.4",
    headers := [("x-signature", "00"), ("x-key", "zz11"), ("x-crypto", "1")],
    receive := .channel [[104, 105]] }

/-- A schema accepting parameters below 10, rejecting the rest. -/
def validateLt10 : Nat → Except String Nat :=
  fun b => if b < 10 then .ok b else .error "invalid params"

/-- A handler adding the parameter to the module value. -/
def addHandler : Nat → Nat → Nat := fun m p => m + p

lemma peek_body_headers (r : Request) : (peek_body r).2.headers = r.headers := by
  cases r with
  | mk c h rec => cases rec <;> rfl

lemma peek_body_client (r : Request) : (peek_body r).2.client = r.client := by
  cases r with
  | mk c h rec => cases rec <;> rfl

lemma input_middleware_header_error
    (verify : Bytes → Int → Bytes → Bytes → Bool) (request : Request)
    (route : Request → Response) (e : Response)
    (h : _get_headers_dict request.headers requiredHeaders = .error e) :
    input_middleware verify request route = .ok e := by
  simp only [input_middleware, peek_body_headers, h]

lemma get_headers_dict_error_shape (hs : List (String × String)) :
    ∀ (req : List String) (e : Response),
      _get_headers_dict hs req = .error e → ∃ msg, e = _return_error 400 msg := by
  intro req
  induction req with
  | nil => intro e h; simp [_get_headers_dict] at h
  | cons a rest ih =>
    intro e h
    rw [_get_headers_dict] at h
    split at h
    · injection h with h; exact ⟨_, h.symm⟩
    · split at h
      · injection h with h; exact ⟨_, h.symm⟩
      · split at h
        · next e2 heq =>
          injection h with h
          obtain ⟨msg, hmsg⟩ := ih e2 heq
          exact ⟨msg, h ▸ hmsg⟩
        · exact absurd h (by simp)

lemma dispatch_denied {σ : Type} (lim : KeyLimiter σ) (st st2 : σ)
    (request : Request) (ip : String)
    (hclient : request.client = some ip) (hip : ip ≠ "")
    (hdeny : lim.allow st ip = (false, st2))
    (call_next : Request → Except PyExn Response) :
    IpLimiterMiddleware.dispatch lim st request call_next
      = .ok ({ status_code := 400,
               headers := [("X-RateLimit-Remaining",
                 toString (lim.remaining st2 ip))],
               body := .empty }, st2) := by
  simp only [IpLimiterMiddleware.dispatch, hclient]
  rw [if_neg hip]
  simp [hdeny]

lemma dispatch_allowed {σ : Type} (lim : KeyLimiter σ) (st st2 : σ)
    (request : Request) (ip : String)
    (hclient : request.client = some ip) (hip : ip ≠ "")
    (hallow : lim.allow st ip = (true, st2))
    (call_next : Request → Except PyExn Response) :
    IpLimiterMiddleware.dispatch lim st request call_next
      = (call_next request).map (fun r => (r, st2)) := by
  simp only [IpLimiterMiddleware.dispatch, hclient]
  rw [if_neg hip]
  simp only [hallow]
  cases hres : call_next request <;> simp [Except.map, hres]

lemma input_middleware_cases (verify : Bytes → Int → Bytes → Bytes → Bool)
    (request : Request) (route : Request → Response) (resp : Response)
    (h : input_middleware verify request route = .ok resp) :
    resp = route (peek_body request).2
    ∨ (resp.status_code = 400 ∧ isErrorBody resp.body = true)
    ∨ (resp.status_code = 401
        ∧ resp.body = .jsonStr "Signatures doesn\x27t match") := by
  simp only [input_middleware] at h
  split at h
  · next e heq =>
    injection h with h
    obtain ⟨msg, hmsg⟩ := get_headers_dict_error_shape _ _ _ heq
    right; left
    rw [← h, hmsg]
    exact ⟨rfl, rfl⟩
  · next d heq =>
    split at h
    · exact absurd h (by simp)
    · split at h
      · injection h with h
        right; left
        rw [← h]
        exact ⟨rfl, rfl⟩
      · split at h
        · exact absurd h (by simp)
        · split at h
          · exact absurd h (by simp)
          · split at h
            · injection h with h
              right; right
              rw [← h]
              exact ⟨rfl, rfl⟩
            · injection h with h
              left; exact h.symm

lemma dispatch_ok_cases {σ : Type} (lim : KeyLimiter σ) (st : σ)
    (request : Request) (call_next : Request → Except PyExn Response)
    (resp : Response) (st2 : σ)
    (h : IpLimiterMiddleware.dispatch lim st request call_next
      = .ok (resp, st2)) :
    (∃ ip, request.client = some ip
      ∧ resp = { status_code := 400,
                 headers := [("X-RateLimit-Remaining",
                   toString (lim.remaining (lim.allow st ip).2 ip))],
                 body := .empty })
    ∨ call_next request = .ok resp := by
  simp only [IpLimiterMiddleware.dispatch] at h
  split at h
  · exact absurd h (by simp)
  · next host heq =>
    split at h
    · exact absurd h (by simp)
    · split at h
      · next =>
        injection h with h
        left
        refine ⟨host, heq, ?_⟩
        have := congrArg Prod.fst h
        simp at this
        exact this.symm
      · split at h
        · exact absurd h (by simp)
        · next r hres =>
          injection h with h
          right
          rw [hres]
          have := congrArg Prod.fst h
          simp at this
          rw [this]

lemma get_headers_dict_three (hs : List (String × String))
    (sig key crypto : String)
    (h1 : headersGet hs "x-signature" = some sig) (h1e : sig ≠ "")
    (h2 : headersGet hs "x-key" = some key) (h2e : key ≠ "")
    (h3 : headersGet hs "x-crypto" = some crypto) (h3e : crypto ≠ "") :
    _get_headers_dict hs requiredHeaders
      = .ok [("x-signature", sig), ("x-key", key), ("x-crypto", crypto)] := by
  simp [requiredHeaders, _get_headers_dict, h1, h2, h3, h1e, h2e, h3e]

lemma is_hex_string_0x (rest : List Char) :
    is_hex_string ⟨'0' :: 'x' :: rest⟩ = false := by
  have hx : isHexRegexChar 'x' = false := by decide
  simp only [is_hex_string]
  split
  · next hlast =>
    cases rest with
    | nil => exact absurd hlast (by decide)
    | cons r rs => simp [List.dropLast, hx]
  · simp [hx]

lemma input_middleware_nonhex_key
    (verify : Bytes → Int → Bytes → Bytes → Bool) (request : Request)
    (route : Request → Response) (sig key crypto : String)
    (hdr : _get_headers_dict request.headers requiredHeaders
      = .ok [("x-signature", sig), ("x-key", key), ("x-crypto", crypto)])
    (c : Int) (hc : pyInt? crypto = some c)
    (hhex : is_hex_string key = false) :
    input_middleware verify request route
      = .ok (_return_error 400 "X-Key should be a hex value") := by
  simp only [input_middleware, peek_body_headers, hdr]
  have hdg : dictGet [("x-signature", sig), ("x-key", key), ("x-crypto", crypto)]
      "x-crypto" = crypto := rfl
  rw [hdg, hc]
  have hdg2 : dictGet [("x-signature", sig), ("x-key", key), ("x-crypto", crypto)]
      "x-key" = key := rfl
  rw [hdg2, hhex]
  simp

/-- C1 (counterexample): the claim says an x-key of "0xAB12" passes the hex
validation and is decoded to bytes AB 12; on the code, the request carrying
x-key = "0xAB12" (with integer x-crypto, hex x-signature, an
always-accepting verifier) is instead rejected with the 400 hex-validation
error, because `is_hex_string` runs on the raw header value and the 0x
prefix fails the regex. -/
theorem hex_validation_0x_counterexample :
    input_middleware verifyTrue reqPrefixedKey routeOk
      = .ok (_return_error 400 "X-Key should be a hex value")
    ∧ is_hex_string "0xAB12" = false
    ∧ parse_hex "0xAB12" = some [171, 18] := by decide

/-- C1 (amended): for every request carrying all three required headers
(non-empty) whose x-crypto value parses as an integer, a non-hex x-key is
rejected with 400 before any decode attempt; a bare hex x-key such as "AB12"
passes the validation and is decoded to bytes AB 12; but every 0x-prefixed
x-key fails the validation, since the prefix is not stripped before the
regex check (only `parse_hex`, unreachable for the key in that case, strips
it). -/
theorem hex_validation_amended (request : Request) (sig key crypto : String)
    (h1 : headersGet request.headers "x-signature" = some sig) (h1e : sig ≠ "")
    (h2 : headersGet request.headers "x-key" = some key) (h2e : key ≠ "")
    (h3 : headersGet request.headers "x-crypto" = some crypto)
    (h3e : crypto ≠ "") (c : Int) (hc : pyInt? crypto = some c) :
    (is_hex_string key = false →
      ∀ (verify : Bytes → Int → Bytes → Bytes → Bool)
        (route : Request → Response),
        input_middleware verify request route
          = .ok (_return_error 400 "X-Key should be a hex value"))
    ∧ (∀ rest : List Char, is_hex_string ⟨'0' :: 'x' :: rest⟩ = false)
    ∧ is_hex_string "zz11" = false
    ∧ is_hex_string "AB12" = true
    ∧ parse_hex "AB12" = some [171, 18] := by
  refine ⟨fun hhex verify route => ?_, is_hex_string_0x,
    by decide, by decide, by decide⟩
  exact input_middleware_nonhex_key verify request route sig key crypto
    (get_headers_dict_three request.headers sig key crypto h1 h1e h2 h2e h3 h3e)
    c hc hhex

/-- C1 witness: the amended theorem applied to the concrete request with
x-key = "zz11" and x-crypto = "1". -/
theorem hex_validation_amended_witness :
    input_middleware verifyTrue reqNonHexKey routeOk
      = .ok (_return_error 400 "X-Key should be a hex value")
    ∧ is_hex_string ⟨'0' :: 'x' :: "AB12".data⟩ = false := by
  have h := hex_validation_amended reqNonHexKey "00" "zz11" "1"
    rfl (by decide) rfl (by decide) rfl (by decide) 1 (by decide)
  exact ⟨h.1 (by decide) verifyTrue routeOk, h.2.1 "AB12".data⟩

/-- C2: a request on which at least one of the three required headers is
absent is answered with a 400 naming a specific header that is absent (or
present with the falsy empty value, which the code also treats as missing),
and the result is the same for every verification capability and route — so
`signer.verify` is never invoked. -/
theorem missing_header_rejection (request : Request)
    (h : ∃ k ∈ requiredHeaders, headersGet request.headers k = none) :
    ∃ k₀ ∈ requiredHeaders,
      (headersGet request.headers k₀ = none
        ∨ headersGet request.headers k₀ = some "")
      ∧ ∀ (verify : Bytes → Int → Bytes → Bytes → Bool)
          (route : Request → Response),
          input_middleware verify request route
            = .ok (_return_error 400 ("Missing header: " ++ k₀)) := by
  rcases hsig : headersGet request.headers "x-signature" with _ | v1
  · refine ⟨"x-signature", by simp [requiredHeaders], Or.inl hsig,
      fun verify route => ?_⟩
    apply input_middleware_header_error
    simp [requiredHeaders, _get_headers_dict, hsig]
  · by_cases hv1 : v1 = ""
    · refine ⟨"x-signature", by simp [requiredHeaders], Or.inr (hv1 ▸ hsig),
        fun verify route => ?_⟩
      apply input_middleware_header_error
      simp [requiredHeaders, _get_headers_dict, hsig, hv1]
    · rcases hkey : headersGet request.headers "x-key" with _ | v2
      · refine ⟨"x-key", by simp [requiredHeaders], Or.inl hkey,
          fun verify route => ?_⟩
        apply input_middleware_header_error
        simp [requiredHeaders, _get_headers_dict, hsig, hv1, hkey]
      · by_cases hv2 : v2 = ""
        · refine ⟨"x-key", by simp [requiredHeaders], Or.inr (hv2 ▸ hkey),
            fun verify route => ?_⟩
          apply input_middleware_header_error
          simp [requiredHeaders, _get_headers_dict, hsig, hv1, hkey, hv2]
        · rcases hcr : headersGet request.headers "x-crypto" with _ | v3
          · refine ⟨"x-crypto", by simp [requiredHeaders], Or.inl hcr,
              fun verify route => ?_⟩
            apply input_middleware_header_error
            simp [requiredHeaders, _get_headers_dict, hsig, hv1, hkey, hv2, hcr]
          · by_cases hv3 : v3 = ""
            · refine ⟨"x-crypto", by simp [requiredHeaders], Or.inr (hv3 ▸ hcr),
                fun verify route => ?_⟩
              apply input_middleware_header_error
              simp [requiredHeaders, _get_headers_dict, hsig, hv1, hkey, hv2,
                hcr, hv3]
            · exfalso
              obtain ⟨k, hk, hnone⟩ := h
              simp only [requiredHeaders, List.mem_cons,
                List.not_mem_nil, or_false] at hk
              rcases hk with rfl | rfl | rfl
              · rw [hsig] at hnone; exact Option.noConfusion hnone
              · rw [hkey] at hnone; exact Option.noConfusion hnone
              · rw [hcr] at hnone; exact Option.noConfusion hnone

/-- C2 witness: the theorem applied to the concrete request lacking
x-signature; the named header is x-signature. -/
theorem missing_header_rejection_witness :
    (∃ k ∈ requiredHeaders, headersGet reqMissingSig.headers k = none)
    ∧ input_middleware verifyTrue reqMissingSig routeOk
        = .ok (_return_error 400 "Missing header: x-signature") := by
  refine ⟨⟨"x-signature", by decide, by decide⟩, ?_⟩
  obtain ⟨k₀, hk₀, hfalsy, happ⟩ :=
    missing_header_rejection reqMissingSig ⟨"x-signature", by decide, by decide⟩
  have h1 := happ verifyTrue routeOk
  simp only [requiredHeaders, List.mem_cons, List.not_mem_nil, or_false] at hk₀
  rcases hk₀ with rfl | rfl | rfl
  · exact h1
  · rcases hfalsy with hf | hf <;> revert hf <;> decide
  · rcases hfalsy with hf | hf <;> revert hf <;> decide

/-- C3: the throttle stage runs strictly before the signature-verification
stage: for a request that is over-quota (the limiter denies its client) and
unauthenticated (the signature middleware would answer the 401 mismatch),
the pipeline answers the throttle 400 with the X-RateLimit-Remaining header,
not the 401, and the pipeline result is identical for every verification
capability and route — the signature middleware is never entered. -/
theorem throttle_precedes_signature_stage {σ : Type} (lim : KeyLimiter σ)
    (st st2 : σ) (ms : Int) (request : Request) (ip : String)
    (hclient : request.client = some ip) (hip : ip ≠ "")
    (hdeny : lim.allow st ip = (false, st2))
    (verify : Bytes → Int → Bytes → Bytes → Bool) (route : Request → Response)
    (hunauth : input_middleware verify request route
      = .ok { status_code := 401, headers := [],
              body := .jsonStr "Signatures doesn\x27t match" }) :
    moduleServerPipeline { max_request_staleness := ms, ip_limiter := lim }
        st verify route request
      = .ok ({ status_code := 400,
               headers := [("X-RateLimit-Remaining",
                 toString (lim.remaining st2 ip))],
               body := .empty }, st2)
    ∧ ∀ (verify2 : Bytes → Int → Bytes → Bytes → Bool)
        (route2 : Request → Response),
        moduleServerPipeline { max_request_staleness := ms, ip_limiter := lim }
            st verify2 route2 request
          = moduleServerPipeline { max_request_staleness := ms, ip_limiter := lim }
              st verify route request := by
  constructor
  · exact dispatch_denied lim st st2 request ip hclient hip hdeny _
  · intro verify2 route2
    show IpLimiterMiddleware.dispatch lim st request
        (fun req => input_middleware verify2 req route2)
      = IpLimiterMiddleware.dispatch lim st request
          (fun req => input_middleware verify req route)
    rw [dispatch_denied lim st st2 request ip hclient hip hdeny
        (fun req => input_middleware verify2 req route2),
      dispatch_denied lim st st2 request ip hclient hip hdeny
        (fun req => input_middleware verify req route)]

/-- C3 witness: a denying limiter together with a rejecting verifier on a
well-formed request; the pipeline answers the throttle 400, and swapping the
verifier leaves the result unchanged. -/
theorem throttle_precedes_signature_stage_witness :
    moduleServerPipeline
        { max_request_staleness := 60, ip_limiter := denyAllLimiter }
        () verifyFalse routeOk reqWellFormed
      = .ok ({ status_code := 400,
               headers := [("X-RateLimit-Remaining", "0")],
               body := .empty }, ())
    ∧ moduleServerPipeline
          { max_request_staleness := 60, ip_limiter := denyAllLimiter }
          () verifyTrue routeOk reqWellFormed
        = moduleServerPipeline
            { max_request_staleness := 60, ip_limiter := denyAllLimiter }
            () verifyFalse routeOk reqWellFormed := by
  have h := throttle_precedes_signature_stage denyAllLimiter () () 60
    reqWellFormed "1.2.3.4" rfl (by decide) rfl verifyFalse routeOk (by decide)
  exact ⟨h.1.trans (by decide), h.2 verifyTrue routeOk⟩

/-- C4: on a denial by the limiter, the throttle middleware responds
immediately with status 400 carrying X-RateLimit-Remaining set to the
limiter's current remaining count for the identity, and the result is the
same for every continuation (no later stage runs); on an allow, the request
is forwarded and the downstream response is returned unchanged — so the
header is attached only on the denied response. -/
theorem ip_limiter_dispatch_contract {σ : Type} (lim : KeyLimiter σ) (st : σ)
    (request : Request) (ip : String)
    (hclient : request.client = some ip) (hip : ip ≠ "") :
    (∀ st2, lim.allow st ip = (false, st2) →
      ∀ call_next call_next2 : Request → Except PyExn Response,
        IpLimiterMiddleware.dispatch lim st request call_next
          = .ok ({ status_code := 400,
                   headers := [("X-RateLimit-Remaining",
                     toString (lim.remaining st2 ip))],
                   body := .empty }, st2)
        ∧ IpLimiterMiddleware.dispatch lim st request call_next
            = IpLimiterMiddleware.dispatch lim st request call_next2)
    ∧ (∀ st2, lim.allow st ip = (true, st2) →
      ∀ call_next : Request → Except PyExn Response,
        IpLimiterMiddleware.dispatch lim st request call_next
          = (call_next request).map (fun r => (r, st2))) := by
  constructor
  · intro st2 hdeny call_next call_next2
    exact ⟨dispatch_denied lim st st2 request ip hclient hip hdeny call_next,
      (dispatch_denied lim st st2 request ip hclient hip hdeny call_next).trans
        (dispatch_denied lim st st2 request ip hclient hip hdeny
          call_next2).symm⟩
  · intro st2 hallow call_next
    exact dispatch_allowed lim st st2 request ip hclient hip hallow call_next

/-- C4 witness: the contract applied to a denying limiter (throttle response
with the header) and to an allowing limiter (forwarded unchanged) on the same
concrete request. -/
theorem ip_limiter_dispatch_contract_witness :
    IpLimiterMiddleware.dispatch denyAllLimiter () reqWellFormed
        (fun req => input_middleware verifyTrue req routeOk)
      = .ok ({ status_code := 400,
               headers := [("X-RateLimit-Remaining", "0")],
               body := .empty }, ())
    ∧ IpLimiterMiddleware.dispatch allowAllLimiter () reqWellFormed
        (fun req => input_middleware verifyTrue req routeOk)
      = ((fun req => input_middleware verifyTrue req routeOk) reqWellFormed).map
          (fun r => (r, ())) := by
  have hd := (ip_limiter_dispatch_contract denyAllLimiter () reqWellFormed
    "1.2.3.4" rfl (by decide)).1 () rfl
    (fun req => input_middleware verifyTrue req routeOk)
    (fun req => input_middleware verifyTrue req routeOk)
  have ha := (ip_limiter_dispatch_contract allowAllLimiter () reqWellFormed
    "1.2.3.4" rfl (by decide)).2 () rfl
    (fun req => input_middleware verifyTrue req routeOk)
  exact ⟨hd.1.trans (by decide), ha⟩

/-- C5 (counterexample): the claim says every rejection of the admission
pipeline except the signature mismatch has the structured error body; on the
code, the throttle denial is a rejection (status 400, produced without
reaching the route) whose body is empty, not the error-object shape, and it
is not the signature-mismatch plain-string case either. -/
theorem rejection_shape_counterexample :
    moduleServerPipeline
        { max_request_staleness := 60, ip_limiter := denyAllLimiter }
        () verifyTrue routeOk reqWellFormed
      = .ok ({ status_code := 400,
               headers := [("X-RateLimit-Remaining", "0")],
               body := .empty }, ())
    ∧ isErrorBody RespBody.empty = false
    ∧ RespBody.empty ≠ RespBody.jsonStr "Signatures doesn\x27t match" := by
  decide

/-- C5 (amended): every response of the admission pipeline is either the
forwarded route response, or a rejection of one of exactly three shapes: a
400 with the structured error-object body, the signature-mismatch 401 with a
plain string body, or the throttle denial 400 with an empty body and the
X-RateLimit-Remaining header. -/
theorem pipeline_rejection_shapes {σ : Type} (lim : KeyLimiter σ) (st : σ)
    (ms : Int) (verify : Bytes → Int → Bytes → Bytes → Bool)
    (route : Request → Response) (request : Request) (resp : Response)
    (st2 : σ)
    (h : moduleServerPipeline { max_request_staleness := ms, ip_limiter := lim }
        st verify route request = .ok (resp, st2)) :
    resp = route (peek_body request).2
    ∨ (resp.status_code = 400 ∧ isErrorBody resp.body = true)
    ∨ (resp.status_code = 401
        ∧ resp.body = .jsonStr "Signatures doesn\x27t match")
    ∨ (resp.status_code = 400 ∧ resp.body = .empty
        ∧ ∃ ip, request.client = some ip
            ∧ resp.headers = [("X-RateLimit-Remaining",
                toString (lim.remaining (lim.allow st ip).2 ip))]) := by
  have hd := dispatch_ok_cases lim st request
    (fun req => input_middleware verify req route) resp st2 h
  rcases hd with ⟨ip, hip, rfl⟩ | hmw
  · right; right; right
    exact ⟨rfl, rfl, ip, hip, rfl⟩
  · rcases input_middleware_cases verify request route resp hmw with h1 | h2 | h3
    · left; exact h1
    · right; left; exact h2
    · right; right; left; exact h3

/-- C5 witness: the amended theorem applied to a concrete run that ends in
the signature-mismatch rejection. -/
theorem pipeline_rejection_shapes_witness :
    (moduleServerPipeline
        { max_request_staleness := 60, ip_limiter := allowAllLimiter }
        () verifyFalse routeOk reqWellFormed
      = .ok ({ status_code := 401, headers := [],
               body := .jsonStr "Signatures doesn\x27t match" }, ()))
    ∧ ({ status_code := 401, headers := [],
         body := .jsonStr "Signatures doesn\x27t match" : Response }
          = routeOk (peek_body reqWellFormed).2
        ∨ ((401 : Nat) = 400
            ∧ isErrorBody (RespBody.jsonStr "Signatures doesn\x27t match")
                = true)
        ∨ ((401 : Nat) = 401
            ∧ RespBody.jsonStr "Signatures doesn\x27t match"
                = RespBody.jsonStr "Signatures doesn\x27t match")
        ∨ ((401 : Nat) = 400
            ∧ RespBody.jsonStr "Signatures doesn\x27t match" = RespBody.empty
            ∧ ∃ ip, reqWellFormed.client = some ip
                ∧ ([] : List (String × String))
                    = [("X-RateLimit-Remaining",
                        toString (allowAllLimiter.remaining
                          (allowAllLimiter.allow () ip).2 ip))])) := by
  refine ⟨by decide, ?_⟩
  exact pipeline_rejection_shapes allowAllLimiter () 60 verifyFalse routeOk
    reqWellFormed _ () (by decide)

/-- C6: for a registered endpoint, parameter validation runs before the
handler: a validation failure yields the validation error and the handler is
never invoked (the result is independent of it); a validation success
invokes the handler with exactly the validated parameters on the module
instance. -/
theorem dispatch_validation_order {M P R E B : Type} (validate : B → Except E P)
    (module : M) (raw : B) :
    (∀ e, validate raw = .error e →
      ∀ fn fn2 : M → P → R,
        endpointHandler validate fn module raw = .error e
        ∧ endpointHandler validate fn module raw
            = endpointHandler validate fn2 module raw)
    ∧ (∀ p, validate raw = .ok p →
      ∀ fn : M → P → R,
        endpointHandler validate fn module raw = .ok (fn module p)) := by
  constructor
  · intro e he fn fn2
    simp [endpointHandler, he]
  · intro p hp fn
    simp [endpointHandler, hp]

/-- C6 witness: at a concrete endpoint, raw value 37 fails validation and
yields the error without the handler, raw value 3 validates and the handler
computes 5 + 3. -/
theorem dispatch_validation_order_witness :
    endpointHandler validateLt10 addHandler 5 37 = .error "invalid params"
    ∧ endpointHandler validateLt10 addHandler 5 3 = .ok 8 := by
  refine ⟨((dispatch_validation_order validateLt10 5 37).1 "invalid params"
    (by decide) addHandler addHandler).1, ?_⟩
  have h := (dispatch_validation_order validateLt10 5 3).2 3 (by decide)
    addHandler
  exact h.trans (by decide)

/-- C7: capturing the body with `peek_body` is not an irrecoverable
consumption: the captured bytes (the ones the signature is verified against)
are exactly the request body, and a later body read on the patched request —
as the dispatch stage performs — returns exactly those bytes again, leaving
the request replayable. -/
theorem peek_body_preserves_bytes (request : Request) :
    (peek_body request).1 = (Request.body request).1
    ∧ Request.body (peek_body request).2
        = ((peek_body request).1, (peek_body request).2) := by
  cases request with
  | mk c h rec => cases rec <;> exact ⟨rfl, rfl⟩

/-- C8: `max_request_staleness` is accepted but inert: two pipeline runs on
the same request, limiter state and capabilities whose configurations differ
only in the `max_request_staleness` value produce identical results — no
stage reads the field. -/
theorem max_request_staleness_inert {σ : Type} (lim : KeyLimiter σ) (st : σ)
    (a b : Int) (verify : Bytes → Int → Bytes → Bytes → Bool)
    (route : Request → Response) (request : Request) :
    moduleServerPipeline { max_request_staleness := a, ip_limiter := lim }
        st verify route request
      = moduleServerPipeline { max_request_staleness := b, ip_limiter := lim }
          st verify route request := rfl

/-- C9: on a request with all three headers whose x-crypto value is not a
decimal integer, the unguarded `int()` conversion raises an unhandled
ValueError — for every verification capability and route, hence before any
of them could run and before the hex validation of x-key, whose non-hex
value "zz11" would otherwise have produced a 400. -/
theorem crypto_int_unguarded :
    (∀ (verify : Bytes → Int → Bytes → Bytes → Bool)
       (route : Request → Response),
      input_middleware verify reqBadCrypto route
        = .error (.valueError "invalid literal for int with base 10"))
    ∧ is_hex_string "zz11" = false := ⟨fun _ _ => rfl, by decide⟩

/-- C10: the x-signature header is never hex-validated: with a well-formed
hex x-key and integer x-crypto but a non-hex x-signature, `bytes.fromhex`
inside `parse_hex` raises an unhandled ValueError for every verification
capability and route, instead of any 400 response. -/
theorem signature_never_hex_validated :
    (∀ (verify : Bytes → Int → Bytes → Bytes → Bool)
       (route : Request → Response),
      input_middleware verify reqBadSignature route
        = .error (.valueError "non-hexadecimal number found in fromhex arg"))
    ∧ is_hex_string "ab" = true ∧ parse_hex "zz" = none :=
  ⟨fun _ _ => rfl, by decide, by decide⟩
